import Mathlib

/-!
Verification of the device-session and motion-control engine of a
homebridge-ewelink plugin against its specification.

The development shallowly embeds, from the TypeScript source:
* `Cache` (src/unnamed/part_000, the expiring key/value cache with per-key
  deletion timers and expiry events);
* `WebSocketClient` (src/unnamed/part_000: `getSequence`, `reconnect`,
  `getDeviceStatus`, `unpackMessage`, `attachRequestId`, `onopen`);
* the window-covering motion controller of `src/src/lib/commonApi.ts`
  (`getBlindState`, `actualPosition`, `setTargetPosition`,
  `setFinalBlindsState`, `prepareBlindSwitchesPayload`,
  `updateBlindStateCharacteristic`).

Times and positions are modelled as exact rationals (JS numbers are floats,
but every scenario proved here stays far inside the exactly-representable
range), wall-clock instants are explicit parameters replacing `Date.now()`,
and JS `Math.round` is `jsRound` below.
-/

/-- JS `Math.round`: round half toward positive infinity. -/
def jsRound (x : ℚ) : ℤ := ⌊x + 1/2⌋

/-! ## Association-list maps (the JS `Map` objects used by `Cache`) -/

/-- Lookup in an association list, the shallow embedding of `Map.get`. -/
def mapGet {α : Type} (k : String) : List (String × α) → Option α
  | [] => none
  | (k1, v) :: rest => if k1 = k then some v else mapGet k rest

/-- Insert-or-replace, the shallow embedding of `Map.set`. -/
def mapSet {α : Type} (k : String) (v : α) : List (String × α) → List (String × α)
  | [] => [(k, v)]
  | (k1, v1) :: rest => if k1 = k then (k, v) :: rest else (k1, v1) :: mapSet k v rest

/-- Removal, the shallow embedding of `Map.delete`. -/
def mapDelete {α : Type} (k : String) : List (String × α) → List (String × α)
  | [] => []
  | (k1, v1) :: rest => if k1 = k then rest else (k1, v1) :: mapDelete k rest

/-! ## The expiring `Cache` (src/unnamed/part_000 lines 12 to 135)

A `setTimeout` handle is modelled as a `CacheTimer` carrying the key, the
absolute instant at which it fires, a fresh id, and whether `clearTimeout`
has been called on it.  `timerMap` maps each key to the id of the timer most
recently installed for it, exactly as in the source. -/

structure CacheTimer where
  key : String
  fireTime : Nat
  id : Nat
  cancelled : Bool
  deriving Repr, DecidableEq

structure CacheState (T : Type) where
  cacheMap : List (String × T)
  timerMap : List (String × Nat)
  timers : List CacheTimer
  nextId : Nat

namespace Cache

def init {T : Type} : CacheState T := ⟨[], [], [], 0⟩

/-- clearTimeout on a timer id: mark that pending timer cancelled. -/
def cancelId {T : Type} (i : Nat) (s : CacheState T) : CacheState T :=
  { s with timers :=
      s.timers.map (fun t => if t.id = i then { t with cancelled := true } else t) }

/-- Embedding of `Cache._clearTimer` (lines 127 to 133): if the timer map
holds an id for the key, `clearTimeout` it.  The source does not remove the
stale entry from `timerMap`. -/
def clearTimer {T : Type} (key : String) (s : CacheState T) : CacheState T :=
  match mapGet key s.timerMap with
  | some i => cancelId i s
  | none => s

/-- Embedding of `Cache.get` (lines 65 to 67). -/
def get {T : Type} (key : String) (s : CacheState T) : Option T :=
  mapGet key s.cacheMap

/-- Embedding of `Cache.set` (lines 88 to 109), called at wall-clock instant
`now`: clear any previous timer for the key, store the value, install a
fresh deletion timer firing at `now + cacheDuration`. -/
def set {T : Type} (now : Nat) (key : String) (value : T) (cacheDuration : Nat)
    (s : CacheState T) : CacheState T :=
  let s1 := clearTimer key s
  { cacheMap := mapSet key value s1.cacheMap
    timerMap := mapSet key s1.nextId s1.timerMap
    timers := s1.timers ++ [⟨key, now + cacheDuration, s1.nextId, false⟩]
    nextId := s1.nextId + 1 }

/-- Embedding of `Cache.delete` (lines 115 to 121). -/
def del {T : Type} (key : String) (s : CacheState T) : CacheState T :=
  let s1 := { s with cacheMap := mapDelete key s.cacheMap }
  clearTimer key s1

/-- Stable insertion into a fire-time-ordered timer list: an earlier-created
timer with the same fire time runs first, matching the JS timer queue. -/
def insertTimer (t : CacheTimer) : List CacheTimer → List CacheTimer
  | [] => [t]
  | u :: us => if u.fireTime < t.fireTime then u :: insertTimer t us else t :: u :: us

/-- Sort pending timers by fire time, stably. -/
def sortTimers : List CacheTimer → List CacheTimer
  | [] => []
  | t :: ts => insertTimer t (sortTimers ts)

/-- Run the timer callbacks of `Cache.set` (lines 97 to 105) in firing
order.  A cancelled timer never runs.  A live timer deletes its key from the
cache map and, when the key was present (`removed`), emits one expiry event
carrying only the firing instant and the key. -/
def fireSorted {T : Type} : List CacheTimer → List (String × T) → List (Nat × String)
  | [], _ => []
  | t :: ts, m =>
    if t.cancelled then fireSorted ts m
    else
      let removed := (mapGet t.key m).isSome
      let m1 := mapDelete t.key m
      if removed then (t.fireTime, t.key) :: fireSorted ts m1 else fireSorted ts m1

/-- All expiry events emitted if the clock now runs forever with no further
cache operations. -/
def runTimers {T : Type} (s : CacheState T) : List (Nat × String) :=
  fireSorted (sortTimers s.timers) s.cacheMap

end Cache

/-! ## WebSocketClient (src/unnamed/part_000 lines 150 to 582) -/

namespace WSClient

/-- Embedding of `getSequence` (lines 401 to 406): the sequence attached to
a request sent at millisecond clock value `now` is the string
`"" + Date.now()`. -/
def getSequence (now : Nat) : String := toString now

/-- Numeric value carried by the sequence string generated at `now`: the
decimal string denotes exactly the clock value. -/
def seqValue (now : Nat) : Nat := now

/-- Connection-lifecycle state relevant to `reconnect`: the
`pendingReconnect` guard flag and how many reconnect timers have been
scheduled via `setTimeout`. -/
structure ReconnectState where
  pendingReconnect : Bool
  scheduled : Nat
  deriving Repr, DecidableEq

def ReconnectState.init : ReconnectState := ⟨false, 0⟩

/-- Embedding of `WebSocketClient.reconnect` (lines 291 to 312): when no
reconnect is pending, set the guard and schedule one timer; otherwise do
nothing. -/
def reconnect (s : ReconnectState) : ReconnectState :=
  if s.pendingReconnect then s
  else { pendingReconnect := true, scheduled := s.scheduled + 1 }

/-- Transport signals dispatched to the close and error listeners installed
in `open` (lines 254 to 280). -/
inductive WSEvent where
  | close (code : Nat)
  | error (connRefused : Bool)
  deriving Repr, DecidableEq

/-- Does this signal trigger `reconnect` in the source?  Close does unless
the code is the normal 1000; an error does exactly when it is
ECONNREFUSED. -/
def triggersReconnect : WSEvent → Bool
  | .close code => code != 1000
  | .error r => r

/-- Embedding of the close listener (lines 254 to 272) and error listener
(lines 274 to 280), restricted to their effect on the reconnect state. -/
def handleEvent (s : ReconnectState) : WSEvent → ReconnectState
  | .close code => if code = 1000 then s else reconnect s
  | .error r => if r then reconnect s else s

/-- Deliver a burst of transport signals, none of whose reconnect timers
has yet fired. -/
def handleEvents (s : ReconnectState) (es : List WSEvent) : ReconnectState :=
  es.foldl handleEvent s

/-- Embedding of `unpackMessage` (lines 229 to 238): results are either the
raw heartbeat text or the output of `JSON.parse`, here an arbitrary
`parse` function since `JSON.parse` is a host primitive. -/
inductive Unpacked (J : Type) where
  | raw (s : String)
  | parsed (j : J)
  deriving Repr, DecidableEq

def unpackMessage {J : Type} (parse : String → J) (data : String) : Unpacked J :=
  if data = "pong" then .raw data else .parsed (parse data)

/-- Wire payloads as seen by `attachRequestId`: the `sequence` field when
the object carries one, plus the remaining opaque fields. -/
structure WirePayload where
  sequence : Option String
  rest : List (String × String)
  deriving Repr, DecidableEq

/-- Embedding of `attachRequestId` (lines 224 to 225):
`Object.assign(\x7bsequence: requestId\x7d, data)` starts from a target
holding `sequence = requestId` and then copies every own property of
`data` over it, so a `sequence` already present in `data` wins. -/
def attachRequestId (data : WirePayload) (requestId : String) : WirePayload :=
  { sequence := some (data.sequence.getD requestId), rest := data.rest }

/-- Embedding of the login request of `onopen` (lines 314 to 360): the
payload is built with `payload.sequence = this.getSequence()` at clock
value `t1`, then passed to `sendRequest` with a separately generated
`requestId: this.getSequence()` at clock value `t2`.  The result is the
`sequence` field on the wire. -/
def loginWireSequence (t1 t2 : Nat) (rest : List (String × String)) : Option String :=
  (attachRequestId { sequence := some (getSequence t1), rest := rest } (getSequence t2)).sequence

/-- Correlation key the client registers its pending login promise under:
the `requestId` passed to `sendRequest`. -/
def loginCorrelationKey (t2 : Nat) : String := getSequence t2

/-- Observable outcome of one `getDeviceStatus` call. -/
structure QueryOutcome (E S : Type) where
  result : Except E S
  delayMs : Option ℚ
  sentRequest : Bool
  cacheAfter : CacheState S

/-- Default TTL of the device-status cache: `new Cache(log)` leaves
`defaultCacheDuration` at 500 (lines 36 and 203). -/
def defaultCacheDuration : Nat := 500

/-- Embedding of `getDeviceStatus` (lines 417 to 464).  `now` is the clock
value at which a successful response is stored, `rand` the `Math.random()`
draw, and `remote` the outcome of `sendRequest` for the query.  On a cache
hit the promise resolves at once with the cached snapshot: no delay, no
request, cache untouched.  On a miss the call sleeps
`Math.random() * 200 + 200` ms, sends the query, and either caches the
result with the default TTL and resolves, or rejects leaving the cache
untouched. -/
def getDeviceStatus {E S : Type} (now : Nat) (cache : CacheState S)
    (deviceId : String) (rand : ℚ) (remote : Except E S) : QueryOutcome E S :=
  match Cache.get deviceId cache with
  | some cached => ⟨.ok cached, none, false, cache⟩
  | none =>
    let delay : ℚ := rand * 200 + 200
    match remote with
    | .ok result =>
        ⟨.ok result, some delay, true, Cache.set now deviceId result defaultCacheDuration cache⟩
    | .error err => ⟨.error err, some delay, true, cache⟩

end WSClient

/-! ## Window-covering motion controller (src/src/lib/commonApi.ts)

The accessory context fields used by the blinds code, with wall-clock
instants passed explicitly in place of `Date.now()`.  Position-state codes
follow the source: 0 = moving up, 1 = moving down, 2 = stopped; the
observed blind state adds 3 = error.  Calibration durations `durationUp`
and `durationDown` are the configured full-travel times in seconds
(`targetTimestamp` adds `duration * 1000`), and the derived per-percent
constants are in milliseconds per percent:
`percentDurationUp = durationUp / 100 * 1000` (commonApi.ts lines 382
to 388). -/

namespace Blinds

structure CoveringCtx where
  lastPosition : ℚ
  currentTargetPosition : ℚ
  currentPositionState : Nat
  startTimestamp : ℚ
  targetTimestamp : ℚ
  durationUp : ℚ
  durationDown : ℚ
  durationBMU : ℚ
  durationBMD : ℚ
  fullOverdrive : ℚ
  percentDurationUp : ℚ
  percentDurationDown : ℚ
  deriving Repr, DecidableEq

/-- Side effects of the blinds routines, in program order: a relay patch
sent through `apiClient.updateDeviceStatus`, the arming of the 100 ms
completion-poll interval, a characteristic write that re-enters the
`TargetPosition` set handler, and handler-free characteristic pushes. -/
inductive BlindEffect where
  | sendPatch (up down : Bool)
  | armPoll
  | targetPositionChar (v : ℚ)
  | currentPositionChar (v : ℚ)
  | positionStateChar (v : Nat)
  deriving Repr, DecidableEq

/-- Embedding of `getBlindState` (lines 1485 to 1514): combine the two
relay booleans as `2 * up + down` and translate through `MAPPING`. -/
def getBlindState (upOn downOn : Bool) : Nat :=
  let switch0 := if upOn then 1 else 0
  let switch1 := if downOn then 1 else 0
  let sum := switch0 * 2 + switch1
  if sum = 0 then 2 else if sum = 1 then 1 else if sum = 2 then 0 else 3

/-- Embedding of `actualPosition` (lines 1765 to 1774): the elapsed-time
position estimate, rounded as by `Math.round`. -/
def actualPosition (now : ℚ) (c : CoveringCtx) : ℚ :=
  if c.currentPositionState = 1 then
    (jsRound (c.lastPosition - (now - c.startTimestamp) / c.percentDurationDown) : ℚ)
  else if c.currentPositionState = 0 then
    (jsRound (c.lastPosition + (now - c.startTimestamp) / c.percentDurationUp) : ℚ)
  else
    c.lastPosition

/-- Embedding of `prepareBlindSwitchesPayload` (lines 1721 to 1763),
reduced to the pair of relay booleans written into the patch; the
default branch leaves both switches at their initial value, off. -/
def prepareBlindSwitchesPayload (c : CoveringCtx) : Bool × Bool :=
  if c.currentPositionState = 2 then (false, false)
  else if c.currentPositionState = 1 then (false, true)
  else if c.currentPositionState = 0 then (true, false)
  else (false, false)

/-- Drive duration computed by the stopped branch of `setTargetPosition`
(lines 1643 to 1663), before the `Math.round(d * 100) / 100` step.
`moveUp = pos > lastPosition`; note that `currentTargetPosition` has
already been overwritten with `pos`, while `lastPosition` is untouched. -/
def blindDriveDuration (c : CoveringCtx) (pos : ℚ) : ℚ :=
  let withoutMarginTimeUp := c.durationUp - c.durationBMU
  let withoutMarginTimeDown := c.durationDown - c.durationBMD
  let d :=
    if pos > c.lastPosition then
      if c.lastPosition = 0 then
        (pos - c.lastPosition) / 100 * withoutMarginTimeUp + c.durationBMU
      else
        (pos - c.lastPosition) / 100 * withoutMarginTimeUp
    else
      if pos = 0 then
        (c.lastPosition - pos) / 100 * withoutMarginTimeDown + c.durationBMD
      else
        (c.lastPosition - pos) / 100 * withoutMarginTimeDown
  if pos = 0 ∨ pos = 100 then d + c.fullOverdrive else d

/-- Embedding of `setFinalBlindsState` (lines 1695 to 1719): set the state
to stopped, send the patch built from the stopped state (both relays off),
settle `lastPosition` at `currentTargetPosition`, and push the settled
values to the host with handler-free `updateValue` calls. -/
def setFinalBlindsState (c : CoveringCtx) : CoveringCtx × List BlindEffect :=
  let c1 := { c with currentPositionState := 2 }
  let patch := prepareBlindSwitchesPayload c1
  let c2 := { c1 with lastPosition := c1.currentTargetPosition }
  (c2, [.sendPatch patch.1 patch.2,
        .currentPositionChar c1.currentTargetPosition,
        .targetPositionChar c1.currentTargetPosition,
        .positionStateChar 2])

/-- Embedding of `setTargetPosition` (lines 1569 to 1693), called at
wall-clock instant `now` with requested position `pos`.  Returns the
updated context and the effects issued, in order. -/
def setTargetPosition (now : ℚ) (pos : ℚ) (c : CoveringCtx) : CoveringCtx × List BlindEffect :=
  if c.currentPositionState ≠ 2 then
    if |pos - c.currentTargetPosition| = 0 then (c, [])
    else
      let diffTime : ℚ :=
        if c.currentPositionState = 1 then
          (jsRound (c.percentDurationDown * (c.currentTargetPosition - pos)) : ℚ)
        else
          (jsRound (c.percentDurationUp * (pos - c.currentTargetPosition)) : ℚ)
      let diff := (c.targetTimestamp - now) + diffTime
      if diff > 0 then
        ({ c with targetTimestamp := c.targetTimestamp + diffTime,
                  currentTargetPosition := pos }, [])
      else if diff < 0 then
        let ap := actualPosition now c
        let newState := if c.currentPositionState = 0 then 1 else 0
        let c1 := { c with startTimestamp := now,
                           targetTimestamp := now + |diff|,
                           lastPosition := ap,
                           currentTargetPosition := pos,
                           currentPositionState := newState }
        let patch := prepareBlindSwitchesPayload c1
        (c1, [.sendPatch patch.1 patch.2,
              .currentPositionChar c1.lastPosition,
              .targetPositionChar c1.currentTargetPosition,
              .positionStateChar c1.currentPositionState])
      else (c, [])
  else
    if c.lastPosition = pos then (c, [])
    else
      let c0 := { c with currentTargetPosition := pos }
      let moveUp := pos > c0.lastPosition
      let duration := (jsRound (blindDriveDuration c0 pos * 100) : ℚ) / 100
      let c1 := { c0 with startTimestamp := now,
                          targetTimestamp := now + duration * 1000,
                          currentPositionState := if moveUp then 0 else 1 }
      let patch := prepareBlindSwitchesPayload c1
      (c1, [.positionStateChar (if moveUp then 0 else 1),
            .sendPatch patch.1 patch.2,
            .armPoll])

/-- One firing of the completion-poll interval armed by the stopped branch
of `setTargetPosition` (lines 1684 to 1690): at instant `t`, when
`Date.now() >= targetTimestamp`, it calls `setFinalBlindsState` and clears
itself; otherwise it does nothing yet. -/
def pollFire (t : ℚ) (c : CoveringCtx) : CoveringCtx × List BlindEffect :=
  if c.targetTimestamp ≤ t then setFinalBlindsState c else (c, [])

/-- Embedding of `updateBlindStateCharacteristic` (lines 914 to 995),
handling an externally observed relay snapshot `(upOn, downOn)` at
instant `now`.  A `service.setCharacteristic(TargetPosition, v)` call
triggers the registered set handler, i.e. re-enters `setTargetPosition`
(registration at lines 356 to 359 and 612 to 618); `PositionState` has
only a get handler, so writing it triggers nothing. -/
def updateBlindStateCharacteristic (now : ℚ) (upOn downOn : Bool)
    (c : CoveringCtx) : CoveringCtx × List BlindEffect :=
  let state := getBlindState upOn downOn
  if state = 3 then
    let ap := actualPosition now c
    let c1 := { c with currentTargetPosition := ap, targetTimestamp := now + 10 }
    let r := setTargetPosition now ap c1
    (r.1, .targetPositionChar ap :: r.2)
  else if state = 2 then
    if c.currentPositionState = 2 then (c, [])
    else
      let ap := actualPosition now c
      let c1 := { c with currentTargetPosition := ap, targetTimestamp := now + 10 }
      let r := setTargetPosition now ap c1
      (r.1, .targetPositionChar ap :: r.2)
  else if state = 1 then
    if c.currentPositionState = 1 then (c, [])
    else if c.currentTargetPosition = 0 then setFinalBlindsState c
    else
      let r := setTargetPosition now 0 c
      (r.1, .targetPositionChar 0 :: r.2)
  else
    if c.currentPositionState = 0 then (c, [])
    else if c.currentTargetPosition = 100 then setFinalBlindsState c
    else
      let r := setTargetPosition now 100 c
      (r.1, .targetPositionChar 100 :: r.2)

/-- Number of relay patches among a list of effects. -/
def countPatches (effs : List BlindEffect) : Nat :=
  effs.countP (fun e => match e with | .sendPatch _ _ => true | _ => false)

/-- Number of both-relays-off patches among a list of effects. -/
def countStopPatches (effs : List BlindEffect) : Nat :=
  effs.countP (fun e => match e with | .sendPatch u d => !u && !d | _ => false)

/-- Number of completion-poll armings among a list of effects. -/
def countArmPolls (effs : List BlindEffect) : Nat :=
  effs.countP (fun e => match e with | .armPoll => true | _ => false)

/-- Duration formula asserted by claim C2, following the specification's
words: the per-percent travel constant (for the margin-reduced full-travel
time of the chosen direction) times the distance, the bottom-margin
constant added only when the motion departs from the 0 extreme
(`lastPosition = 0`), and `fullOverdrive` added exactly when the target is
0 or 100.  Written from the claim for comparison with
`blindDriveDuration`, which is translated from the code. -/
def specC2Duration (c : CoveringCtx) (pos : ℚ) : ℚ :=
  let per := if pos > c.lastPosition then (c.durationUp - c.durationBMU) / 100
             else (c.durationDown - c.durationBMD) / 100
  let margin := if c.lastPosition = 0 then
                  (if pos > c.lastPosition then c.durationBMU else c.durationBMD)
                else 0
  per * |pos - c.lastPosition| + margin +
    (if pos = 0 ∨ pos = 100 then c.fullOverdrive else 0)

/-- Covering of the claim C1 scenario: settled at position 0 with a
10000 ms (10 s) full up-travel time, no margins, no overdrive.  The derived
per-percent constants follow commonApi.ts lines 387 to 388. -/
def exC1Ctx : CoveringCtx :=
  { lastPosition := 0, currentTargetPosition := 0, currentPositionState := 2,
    startTimestamp := 0, targetTimestamp := 0,
    durationUp := 10, durationDown := 10, durationBMU := 0, durationBMD := 0,
    fullOverdrive := 0, percentDurationUp := 100, percentDurationDown := 100 }

/-- Covering settled at position 50 with a 2 s bottom margin on the down
travel, used to compare the code's duration against claim C2's formula. -/
def exC2Ctx : CoveringCtx :=
  { exC1Ctx with lastPosition := 50, currentTargetPosition := 50, durationBMD := 2 }

/-- Covering settled at position 30, used for the claim C4 fault scenario
in the stopped state. -/
def exC4Stopped : CoveringCtx :=
  { exC1Ctx with lastPosition := 30, currentTargetPosition := 30 }

/-- Covering moving up from 0 toward 50 (motion started at instant 1000,
due at 6000), used for the claim C4 fault scenario while moving. -/
def exC4Moving : CoveringCtx :=
  { exC1Ctx with
      currentTargetPosition := 50, currentPositionState := 0,
      startTimestamp := 1000, targetTimestamp := 6000 }

end Blinds

/-! ## Theorems -/

/-- Claim C9: the inbound message decoder returns the literal string
"pong" unchanged when the raw payload equals "pong" (for every possible
JSON parser, so no parsing is attempted in that case), and applies JSON
parsing to every other inbound payload. -/
theorem c9_unpack_message {J : Type} (parse : String → J) (data : String)
    (h : data ≠ "pong") :
    WSClient.unpackMessage parse "pong" = WSClient.Unpacked.raw "pong" ∧
    WSClient.unpackMessage parse data = WSClient.Unpacked.parsed (parse data) := by
  refine ⟨by simp [WSClient.unpackMessage], by simp [WSClient.unpackMessage, h]⟩

theorem c9_unpack_message_witness :
    "a" ≠ "pong" ∧
    (WSClient.unpackMessage (fun s => s) "pong" = WSClient.Unpacked.raw "pong" ∧
     WSClient.unpackMessage (fun s => s) "a" = WSClient.Unpacked.parsed "a") :=
  ⟨by decide, c9_unpack_message (fun s => s) "a" (by decide)⟩

/-- Claim C10: `attachRequestId` merges as
`Object.assign(\x7bsequence: requestId\x7d, data)`, so a payload already
carrying a `sequence` field keeps that value on the wire and the supplied
request id is discarded; for the login request of `onopen`, the wire
`sequence` is the payload's pre-set `getSequence` value from clock `t1`,
which differs from the correlation key generated at clock `t2` in the
concrete case of two calls one millisecond apart. -/
theorem c10_attach_request_id (data : WSClient.WirePayload) (rid s : String)
    (h : data.sequence = some s) (t1 t2 : Nat) (rest : List (String × String)) :
    (WSClient.attachRequestId data rid).sequence = some s ∧
    WSClient.loginWireSequence t1 t2 rest = some (WSClient.getSequence t1) ∧
    WSClient.loginWireSequence 1000 1001 [] ≠
      some (WSClient.loginCorrelationKey 1001) := by
  refine ⟨by simp [WSClient.attachRequestId, h], rfl, ?_⟩
  intro hcontra
  simp only [WSClient.loginWireSequence, WSClient.attachRequestId,
    WSClient.loginCorrelationKey, WSClient.getSequence, Option.getD_some,
    Option.some.injEq] at hcontra
  exact absurd hcontra (by decide)

theorem c10_attach_request_id_witness :
    (WSClient.WirePayload.mk (some "7") []).sequence = some "7" ∧
    ((WSClient.attachRequestId (WSClient.WirePayload.mk (some "7") []) "8").sequence = some "7" ∧
     WSClient.loginWireSequence 3 4 [] = some (WSClient.getSequence 3) ∧
     WSClient.loginWireSequence 1000 1001 [] ≠
       some (WSClient.loginCorrelationKey 1001)) :=
  ⟨rfl, c10_attach_request_id (WSClient.WirePayload.mk (some "7") []) "8" "7" rfl 3 4 []⟩

/-- Claim C5 as stated is false: the sequence value `getSequence` attaches
is the millisecond clock reading, so a pair of requests sent one after the
other within the same millisecond (here both at clock value 1000) carries
equal, not strictly increasing, sequence values. -/
theorem c5_sequence_counterexample :
    ¬ (∀ t1 t2 : Nat, t1 ≤ t2 → WSClient.seqValue t1 < WSClient.seqValue t2) := by
  intro h
  exact absurd (h 1000 1000 le_rfl) (by simp [WSClient.seqValue])

/-- Claim C5 amended: across consecutive requests the sequence values
generated by `getSequence` are non-decreasing, and strictly increasing
exactly when the later request is sent at a strictly later millisecond;
the wire string is the decimal rendering of that value. -/
theorem c5_sequence_monotone (t1 t2 : Nat) (h : t1 ≤ t2) :
    WSClient.seqValue t1 ≤ WSClient.seqValue t2 ∧
    (t1 < t2 → WSClient.seqValue t1 < WSClient.seqValue t2) ∧
    WSClient.getSequence t1 = toString (WSClient.seqValue t1) := by
  exact ⟨h, fun h2 => h2, rfl⟩

theorem c5_sequence_monotone_witness :
    1000 ≤ 1001 ∧
    (WSClient.seqValue 1000 ≤ WSClient.seqValue 1001 ∧
     (1000 < 1001 → WSClient.seqValue 1000 < WSClient.seqValue 1001) ∧
     WSClient.getSequence 1000 = toString (WSClient.seqValue 1000)) :=
  ⟨by decide, c5_sequence_monotone 1000 1001 (by decide)⟩

/-- Claim C3: whenever the completion poll fires the stop routine (it does
so at any instant `t` at or past `targetTimestamp`), the covering ends with
`lastPosition = currentTargetPosition` and `currentPositionState`
stopped, for every covering state and hence every reachable target. -/
theorem c3_settle_invariant (c : Blinds.CoveringCtx) (t : ℚ)
    (h : c.targetTimestamp ≤ t) :
    (Blinds.pollFire t c).1.lastPosition = (Blinds.pollFire t c).1.currentTargetPosition ∧
    (Blinds.pollFire t c).1.currentPositionState = 2 := by
  simp [Blinds.pollFire, h, Blinds.setFinalBlindsState]

theorem c3_settle_invariant_witness :
    Blinds.exC1Ctx.targetTimestamp ≤ 5 ∧
    ((Blinds.pollFire 5 Blinds.exC1Ctx).1.lastPosition =
        (Blinds.pollFire 5 Blinds.exC1Ctx).1.currentTargetPosition ∧
     (Blinds.pollFire 5 Blinds.exC1Ctx).1.currentPositionState = 2) :=
  ⟨by norm_num [Blinds.exC1Ctx], c3_settle_invariant Blinds.exC1Ctx 5 (by norm_num [Blinds.exC1Ctx])⟩

/-- Claim C2 as stated is false on the code: moving down from position 50
to target 0 with a 2 s bottom margin, the code adds `durationBMD` because
the target is the 0 extreme, although the motion does not depart from
`lastPosition = 0`; the code computes 6 s where the claimed formula gives
4 s, and `setTargetPosition` accordingly schedules the stop at 6000 ms. -/
theorem c2_duration_counterexample :
    Blinds.blindDriveDuration Blinds.exC2Ctx 0 = 6 ∧
    Blinds.specC2Duration Blinds.exC2Ctx 0 = 4 ∧
    Blinds.blindDriveDuration Blinds.exC2Ctx 0 ≠ Blinds.specC2Duration Blinds.exC2Ctx 0 ∧
    (Blinds.setTargetPosition 0 0 Blinds.exC2Ctx).1.targetTimestamp = 6000 := by
  refine ⟨?_, ?_, ?_, ?_⟩ <;>
    norm_num [Blinds.blindDriveDuration, Blinds.specC2Duration, Blinds.exC2Ctx,
      Blinds.exC1Ctx, Blinds.setTargetPosition, jsRound]

/-- Claim C2 amended: for a covering commanded from the stopped state, the
drive duration is the margin-reduced per-percent travel constant times the
distance, plus `durationBMU` when moving up departing from the 0 extreme
(`lastPosition = 0`), plus `durationBMD` when moving down arriving at the
0 extreme (target `pos = 0`), plus `fullOverdrive` exactly when the target
is 0 or 100. -/
theorem c2_duration_amended (c : Blinds.CoveringCtx) (pos : ℚ) :
    Blinds.blindDriveDuration c pos =
      (if pos > c.lastPosition then (c.durationUp - c.durationBMU) / 100
       else (c.durationDown - c.durationBMD) / 100) * |pos - c.lastPosition|
      + (if pos > c.lastPosition ∧ c.lastPosition = 0 then c.durationBMU else 0)
      + (if ¬ pos > c.lastPosition ∧ pos = 0 then c.durationBMD else 0)
      + (if pos = 0 ∨ pos = 100 then c.fullOverdrive else 0) := by
  unfold Blinds.blindDriveDuration
  split_ifs <;>
    first
      | tauto
      | (rw [abs_of_pos (by linarith)]; ring)
      | (rw [abs_of_nonpos (by linarith)]; ring)

/-- Claim C7: re-setting a key before its TTL elapses cancels the first
entry's deletion timer, so exactly one expiry event fires for the key,
`ttl` after the second `set`, carrying only the key. -/
theorem c7_cache_ttl {T : Type} (k : String) (v v2 : T) (ttl t1 t2 : Nat)
    (h12 : t1 ≤ t2) (hbefore : t2 < t1 + ttl) :
    Cache.runTimers (Cache.set t2 k v2 ttl (Cache.set t1 k v ttl Cache.init)) =
      [(t2 + ttl, k)] := by
  have hfire : ¬ (t2 + ttl < t1 + ttl) := by omega
  simp [Cache.set, Cache.init, Cache.clearTimer, Cache.cancelId, mapGet, mapSet,
    Cache.runTimers, Cache.sortTimers, Cache.insertTimer, Cache.fireSorted,
    mapDelete, hfire]

theorem c7_cache_ttl_witness :
    100 ≤ 300 ∧ 300 < 100 + 500 ∧
    Cache.runTimers (Cache.set 300 "k" 2 500 (Cache.set 100 "k" (1 : Nat) 500 Cache.init)) =
      [(800, "k")] :=
  ⟨by decide, by decide, c7_cache_ttl "k" 1 2 500 100 300 (by decide) (by decide)⟩

/-- Once a reconnect is pending, every further transport signal leaves the
reconnect state untouched. -/
theorem handleEvents_pending_fixed (es : List WSClient.WSEvent)
    (s : WSClient.ReconnectState) (h : s.pendingReconnect = true) :
    WSClient.handleEvents s es = s := by
  induction es with
  | nil => rfl
  | cons e rest ih =>
      have he : WSClient.handleEvent s e = s := by
        cases e <;> simp [WSClient.handleEvent, WSClient.reconnect, h]
      simpa [WSClient.handleEvents, he] using ih

/-- A burst of signals none of which triggers a reconnect (normal closes,
non-refused errors) leaves the reconnect state untouched. -/
theorem handleEvents_no_trigger (fs : List WSClient.WSEvent)
    (s : WSClient.ReconnectState)
    (hnone : ∀ e ∈ fs, WSClient.triggersReconnect e = false) :
    WSClient.handleEvents s fs = s := by
  induction fs generalizing s with
  | nil => rfl
  | cons e rest ih =>
      have he : WSClient.handleEvent s e = s := by
        have ht := hnone e (by simp)
        cases e with
        | close code =>
            have : code = 1000 := by simpa [WSClient.triggersReconnect] using ht
            simp [WSClient.handleEvent, this]
        | error r =>
            have : r = false := by simpa [WSClient.triggersReconnect] using ht
            simp [WSClient.handleEvent, this]
      show WSClient.handleEvents (WSClient.handleEvent s e) rest = s
      rw [he]
      exact ih s (fun x hx => hnone x (List.mem_cons_of_mem e hx))

/-- Claim C6: a nonempty burst of abnormal-close or connection-refused
signals delivered before the pending reconnect timer fires schedules
exactly one reconnect attempt (the `pendingReconnect` guard makes every
further `reconnect` call a no-op), while a burst of non-triggering signals
(normal close code 1000, non-refused errors) schedules none. -/
theorem c6_reconnect_idempotent (es : List WSClient.WSEvent) (hne : es ≠ [])
    (hall : ∀ e ∈ es, WSClient.triggersReconnect e = true) :
    (WSClient.handleEvents .init es).scheduled = 1 ∧
    (WSClient.handleEvents .init es).pendingReconnect = true ∧
    ∀ fs : List WSClient.WSEvent,
      (∀ e ∈ fs, WSClient.triggersReconnect e = false) →
      (WSClient.handleEvents .init fs).scheduled = 0 := by
  refine ⟨?_, ?_, ?_⟩
  · match es, hne with
    | e :: rest, _ =>
        have he : WSClient.handleEvent .init e = ⟨true, 1⟩ := by
          have := hall e (by simp)
          cases e with
          | close code =>
              have : code ≠ 1000 := by simpa [WSClient.triggersReconnect] using this
              simp [WSClient.handleEvent, WSClient.reconnect, WSClient.ReconnectState.init, this]
          | error r =>
              have : r = true := by simpa [WSClient.triggersReconnect] using this
              simp [WSClient.handleEvent, WSClient.reconnect, WSClient.ReconnectState.init, this]
        show (WSClient.handleEvents (WSClient.handleEvent .init e) rest).scheduled = 1
        rw [he, handleEvents_pending_fixed rest ⟨true, 1⟩ rfl]
  · match es, hne with
    | e :: rest, _ =>
        have he : (WSClient.handleEvent .init e).pendingReconnect = true := by
          have := hall e (by simp)
          cases e with
          | close code =>
              have : code ≠ 1000 := by simpa [WSClient.triggersReconnect] using this
              simp [WSClient.handleEvent, WSClient.reconnect, WSClient.ReconnectState.init, this]
          | error r =>
              have : r = true := by simpa [WSClient.triggersReconnect] using this
              simp [WSClient.handleEvent, WSClient.reconnect, WSClient.ReconnectState.init, this]
        show (WSClient.handleEvents (WSClient.handleEvent .init e) rest).pendingReconnect = true
        rw [handleEvents_pending_fixed rest _ he]
        exact he
  · intro fs hnone
    rw [handleEvents_no_trigger fs .init hnone]
    rfl

theorem c6_reconnect_idempotent_witness :
    ([WSClient.WSEvent.close 1006, WSClient.WSEvent.error true,
      WSClient.WSEvent.close 1] ≠ [] ) ∧
    (WSClient.handleEvents .init
        [WSClient.WSEvent.close 1006, WSClient.WSEvent.error true,
         WSClient.WSEvent.close 1]).scheduled = 1 ∧
    (WSClient.handleEvents .init [WSClient.WSEvent.close 1000]).scheduled = 0 := by
  have h := c6_reconnect_idempotent
    [WSClient.WSEvent.close 1006, WSClient.WSEvent.error true, WSClient.WSEvent.close 1]
    (by decide) (by decide)
  exact ⟨by decide, h.1, h.2.2 [WSClient.WSEvent.close 1000] (by decide)⟩

/-- Claim C8: `getDeviceStatus` resolves immediately from the cache on a
hit (no jitter delay, no request, cache untouched); on a miss it waits a
randomized delay of 200 to 400 ms, sends the query, and on success stores
the result under the default TTL before resolving, while a remote failure
rejects and leaves the cache untouched. -/
theorem c8_get_device_status {E S : Type} (now : Nat) (cache : CacheState S)
    (id : String) (rand : ℚ) (hr0 : 0 ≤ rand) (hr1 : rand < 1)
    (remote : Except E S) :
    (∀ snap, Cache.get id cache = some snap →
        WSClient.getDeviceStatus now cache id rand remote =
          ⟨.ok snap, none, false, cache⟩) ∧
    (Cache.get id cache = none →
        (200 ≤ rand * 200 + 200 ∧ rand * 200 + 200 < 400) ∧
        (∀ v, remote = .ok v →
            WSClient.getDeviceStatus now cache id rand remote =
              ⟨.ok v, some (rand * 200 + 200), true,
               Cache.set now id v WSClient.defaultCacheDuration cache⟩) ∧
        (∀ e, remote = .error e →
            WSClient.getDeviceStatus now cache id rand remote =
              ⟨.error e, some (rand * 200 + 200), true, cache⟩)) := by
  constructor
  · intro snap hsnap
    simp [WSClient.getDeviceStatus, hsnap]
  · intro hmiss
    refine ⟨⟨by linarith, by linarith⟩, ?_, ?_⟩
    · intro v hv
      simp [WSClient.getDeviceStatus, hmiss, hv]
    · intro e he
      simp [WSClient.getDeviceStatus, hmiss, he]

theorem c8_get_device_status_witness :
    ((0:ℚ) ≤ 1/2 ∧ (1/2:ℚ) < 1) ∧
    ((∀ snap, Cache.get "d1" (⟨[("d1", 7)], [], [], 0⟩ : CacheState Nat) = some snap →
        WSClient.getDeviceStatus 9000 ⟨[("d1", 7)], [], [], 0⟩ "d1" (1/2)
            (Except.ok (ε := String) 9) =
          ⟨.ok snap, none, false, ⟨[("d1", 7)], [], [], 0⟩⟩) ∧
     (Cache.get "d1" (⟨[("d1", 7)], [], [], 0⟩ : CacheState Nat) = none →
        (200 ≤ (1/2 : ℚ) * 200 + 200 ∧ (1/2 : ℚ) * 200 + 200 < 400) ∧
        (∀ v, Except.ok (ε := String) 9 = .ok v →
            WSClient.getDeviceStatus 9000 ⟨[("d1", 7)], [], [], 0⟩ "d1" (1/2)
                (Except.ok (ε := String) 9) =
              ⟨.ok v, some ((1/2 : ℚ) * 200 + 200), true,
               Cache.set 9000 "d1" v WSClient.defaultCacheDuration ⟨[("d1", 7)], [], [], 0⟩⟩) ∧
        (∀ e, Except.ok (ε := String) 9 = .error e →
            WSClient.getDeviceStatus 9000 ⟨[("d1", 7)], [], [], 0⟩ "d1" (1/2)
                (Except.ok (ε := String) 9) =
              ⟨.error e, some ((1/2 : ℚ) * 200 + 200), true, ⟨[("d1", 7)], [], [], 0⟩⟩))) :=
  ⟨⟨by norm_num, by norm_num⟩,
   c8_get_device_status 9000 ⟨[("d1", 7)], [], [], 0⟩ "d1" (1/2) (by norm_num) (by norm_num)
     (Except.ok 9)⟩

/-- Rounding a rational that is already an integer is the identity. -/
theorem jsRound_intCast (n : ℤ) : jsRound (n : ℚ) = n := by
  unfold jsRound
  rw [Int.floor_eq_iff]
  constructor <;> [skip; push_cast] <;> norm_num

/-- First step of the claim C1 scenario: commanding target 50 from the
stopped context starts an upward run due at `t0 + 5000` ms, sending the
up-relay patch and arming the completion poll. -/
theorem setTargetPosition_exC1_first (t0 : ℚ) :
    Blinds.setTargetPosition t0 50 Blinds.exC1Ctx =
      ({ Blinds.exC1Ctx with
           currentTargetPosition := 50, startTimestamp := t0,
           targetTimestamp := t0 + 5000, currentPositionState := 0 },
       [.positionStateChar 0, .sendPatch true false, .armPoll]) := by
  norm_num [Blinds.setTargetPosition, Blinds.exC1Ctx, Blinds.blindDriveDuration,
    Blinds.prepareBlindSwitchesPayload, jsRound]

/-- Same-direction extension branch of `setTargetPosition` (lines 1603 to
1610): while moving up, a farther target with positive remaining time
only extends `targetTimestamp` by `diffTime` and retargets, with no
effect issued. -/
theorem setTargetPosition_extend (now pos : ℚ) (c : Blinds.CoveringCtx)
    (hmoving : c.currentPositionState = 0)
    (hne : pos ≠ c.currentTargetPosition)
    (hdiff : (c.targetTimestamp - now) +
        (jsRound (c.percentDurationUp * (pos - c.currentTargetPosition)) : ℚ) > 0) :
    Blinds.setTargetPosition now pos c =
      ({ c with
           targetTimestamp := c.targetTimestamp +
             (jsRound (c.percentDurationUp * (pos - c.currentTargetPosition)) : ℚ),
           currentTargetPosition := pos }, []) := by
  have h2 : ¬ |pos - c.currentTargetPosition| = 0 := by
    simp [abs_eq_zero, sub_eq_zero, hne]
  simp only [Blinds.setTargetPosition, hmoving]
  norm_num [h2, hdiff]

/-- Claim C1: from the stopped context at position 0 with a 10000 ms up
travel and no margins or overdrive, `setTargetPosition 50` at instant `t0`
starts an upward run (`currentPositionState = 0`) due at `t0 + 5000` and
sends one relay patch; a second `setTargetPosition 100` at instant `t1`
while still moving in the same direction only adds the corresponding
`diffTime` (5000 ms) to `targetTimestamp` and retargets, sending no new
relay command and leaving the direction unchanged. -/
theorem c1_same_direction_extension (t0 t1 : ℚ) (h01 : t0 ≤ t1)
    (hmov : t1 < t0 + 5000) :
    (Blinds.setTargetPosition t0 50 Blinds.exC1Ctx).1.currentPositionState = 0 ∧
    (Blinds.setTargetPosition t0 50 Blinds.exC1Ctx).1.targetTimestamp = t0 + 5000 ∧
    Blinds.countPatches (Blinds.setTargetPosition t0 50 Blinds.exC1Ctx).2 = 1 ∧
    (Blinds.setTargetPosition t1 100
        (Blinds.setTargetPosition t0 50 Blinds.exC1Ctx).1).1.currentPositionState = 0 ∧
    (Blinds.setTargetPosition t1 100
        (Blinds.setTargetPosition t0 50 Blinds.exC1Ctx).1).1.currentTargetPosition = 100 ∧
    (Blinds.setTargetPosition t1 100
        (Blinds.setTargetPosition t0 50 Blinds.exC1Ctx).1).1.targetTimestamp =
      (t0 + 5000) + 5000 ∧
    (Blinds.setTargetPosition t1 100
        (Blinds.setTargetPosition t0 50 Blinds.exC1Ctx).1).2 = [] := by
  rw [setTargetPosition_exC1_first t0]
  have hjs : (jsRound ((100 : ℚ) * (100 - 50)) : ℚ) = 5000 := by
    norm_num [jsRound]
  have hext := setTargetPosition_extend t1 100
    ({ Blinds.exC1Ctx with
         currentTargetPosition := 50, startTimestamp := t0,
         targetTimestamp := t0 + 5000, currentPositionState := 0 })
    rfl (by norm_num [Blinds.exC1Ctx]) (by simp [Blinds.exC1Ctx, hjs]; linarith)
  rw [hext]
  refine ⟨rfl, rfl, rfl, rfl, rfl, ?_, rfl⟩
  simp [Blinds.exC1Ctx, hjs]

theorem c1_same_direction_extension_witness :
    ((0 : ℚ) ≤ 1 ∧ (1 : ℚ) < 0 + 5000) ∧
    ((Blinds.setTargetPosition 0 50 Blinds.exC1Ctx).1.currentPositionState = 0 ∧
     (Blinds.setTargetPosition 0 50 Blinds.exC1Ctx).1.targetTimestamp = 0 + 5000 ∧
     Blinds.countPatches (Blinds.setTargetPosition 0 50 Blinds.exC1Ctx).2 = 1 ∧
     (Blinds.setTargetPosition 1 100
         (Blinds.setTargetPosition 0 50 Blinds.exC1Ctx).1).1.currentPositionState = 0 ∧
     (Blinds.setTargetPosition 1 100
         (Blinds.setTargetPosition 0 50 Blinds.exC1Ctx).1).1.currentTargetPosition = 100 ∧
     (Blinds.setTargetPosition 1 100
         (Blinds.setTargetPosition 0 50 Blinds.exC1Ctx).1).1.targetTimestamp =
       ((0 : ℚ) + 5000) + 5000 ∧
     (Blinds.setTargetPosition 1 100
         (Blinds.setTargetPosition 0 50 Blinds.exC1Ctx).1).2 = []) :=
  ⟨⟨by norm_num, by norm_num⟩,
   c1_same_direction_extension 0 1 (by norm_num) (by norm_num)⟩

/-- Claim C4 as stated is false on the code: with the covering already
stopped (settled at 30), an observed snapshot with both relays energized
(`getBlindState = 3`) leaves the state stopped but commands no relay
patch at all through `updateBlindStateCharacteristic` (the error branch
only re-targets and shortens `targetTimestamp`, relying on a completion
poll that is not armed when stopped), so no both-relays-off patch is sent
even once. -/
theorem c4_error_patch_counterexample :
    Blinds.getBlindState true true = 3 ∧
    (Blinds.updateBlindStateCharacteristic 5000 true true Blinds.exC4Stopped).1.currentPositionState = 2 ∧
    Blinds.countPatches
      (Blinds.updateBlindStateCharacteristic 5000 true true Blinds.exC4Stopped).2 = 0 ∧
    Blinds.countArmPolls
      (Blinds.updateBlindStateCharacteristic 5000 true true Blinds.exC4Stopped).2 = 0 := by
  decide

/-- Claim C4 amended: when the error snapshot (both relays energized)
arrives while the covering is moving, the handler itself sends no patch
but re-targets to the estimated actual position and sets
`targetTimestamp = now + 10`, so the completion poll armed by the motion
in progress fires and forces the stopped state, commanding the
both-relays-off patch exactly once; when the covering is already stopped
the handler commands nothing (`c4_error_patch_counterexample`). -/
theorem c4_error_forces_stop_amended (now t : ℚ) (c : Blinds.CoveringCtx)
    (hmov : c.currentPositionState = 0 ∨ c.currentPositionState = 1)
    (ht : now + 10 ≤ t) :
    Blinds.countPatches (Blinds.updateBlindStateCharacteristic now true true c).2 = 0 ∧
    (Blinds.updateBlindStateCharacteristic now true true c).1.targetTimestamp = now + 10 ∧
    (Blinds.pollFire t (Blinds.updateBlindStateCharacteristic now true true c).1).1.currentPositionState = 2 ∧
    (Blinds.pollFire t (Blinds.updateBlindStateCharacteristic now true true c).1).1.lastPosition =
      (Blinds.pollFire t (Blinds.updateBlindStateCharacteristic now true true c).1).1.currentTargetPosition ∧
    Blinds.countStopPatches
      ((Blinds.updateBlindStateCharacteristic now true true c).2 ++
       (Blinds.pollFire t (Blinds.updateBlindStateCharacteristic now true true c).1).2) = 1 ∧
    Blinds.countPatches
      ((Blinds.updateBlindStateCharacteristic now true true c).2 ++
       (Blinds.pollFire t (Blinds.updateBlindStateCharacteristic now true true c).1).2) = 1 := by
  have hne2 : c.currentPositionState ≠ 2 := by
    rcases hmov with h | h <;> simp [h]
  have hhandler : Blinds.updateBlindStateCharacteristic now true true c =
      ({ c with currentTargetPosition := Blinds.actualPosition now c,
                targetTimestamp := now + 10 },
       [.targetPositionChar (Blinds.actualPosition now c)]) := by
    simp only [Blinds.updateBlindStateCharacteristic, Blinds.getBlindState]
    norm_num
    simp [Blinds.setTargetPosition, hne2, sub_self, abs_zero]
  rw [hhandler]
  have hpoll : Blinds.pollFire t
      ({ c with currentTargetPosition := Blinds.actualPosition now c,
                targetTimestamp := now + 10 } : Blinds.CoveringCtx) =
      Blinds.setFinalBlindsState
        { c with currentTargetPosition := Blinds.actualPosition now c,
                 targetTimestamp := now + 10 } := by
    simp [Blinds.pollFire, ht]
  rw [hpoll]
  simp [Blinds.setFinalBlindsState, Blinds.prepareBlindSwitchesPayload,
    Blinds.countPatches, Blinds.countStopPatches]

theorem c4_error_forces_stop_amended_witness :
    ((Blinds.exC4Moving.currentPositionState = 0 ∨
        Blinds.exC4Moving.currentPositionState = 1) ∧ (3000 : ℚ) + 10 ≤ 3010) ∧
    (Blinds.countPatches
        (Blinds.updateBlindStateCharacteristic 3000 true true Blinds.exC4Moving).2 = 0 ∧
     (Blinds.updateBlindStateCharacteristic 3000 true true Blinds.exC4Moving).1.targetTimestamp =
       3000 + 10 ∧
     (Blinds.pollFire 3010
         (Blinds.updateBlindStateCharacteristic 3000 true true Blinds.exC4Moving).1).1.currentPositionState = 2 ∧
     (Blinds.pollFire 3010
         (Blinds.updateBlindStateCharacteristic 3000 true true Blinds.exC4Moving).1).1.lastPosition =
       (Blinds.pollFire 3010
           (Blinds.updateBlindStateCharacteristic 3000 true true Blinds.exC4Moving).1).1.currentTargetPosition ∧
     Blinds.countStopPatches
       ((Blinds.updateBlindStateCharacteristic 3000 true true Blinds.exC4Moving).2 ++
        (Blinds.pollFire 3010
            (Blinds.updateBlindStateCharacteristic 3000 true true Blinds.exC4Moving).1).2) = 1 ∧
     Blinds.countPatches
       ((Blinds.updateBlindStateCharacteristic 3000 true true Blinds.exC4Moving).2 ++
        (Blinds.pollFire 3010
            (Blinds.updateBlindStateCharacteristic 3000 true true Blinds.exC4Moving).1).2) = 1) :=
  ⟨⟨by decide, by norm_num⟩,
   c4_error_forces_stop_amended 3000 3010 Blinds.exC4Moving (by decide) (by norm_num)⟩
